import Mathlib

/-!
Shallow embedding of the double-entry ledger engine of the finance-tracker
repository.

Components modelled (each definition names the source it is taken from):
* the Entry Builder and its account resolution heuristics
  (`src/app/api/transactions/create/route.ts`, the `POST` handler),
* the Ledger Writer (`supabase/rpc.sql` `create_transaction_with_entries`,
  in its latest `CREATE OR REPLACE` form, together with the deferred
  balance-check trigger `ensure_transaction_balanced` of
  `supabase/schema.sql`),
* soft delete / restore (`delete_transaction` / `restore_transaction`,
  migration file),
* the Balance Calculator (`src/lib/calculateBalance.ts`),
* the two Direction Derivers (`src/app/api/transactions/list/route.ts`
  and `src/app/api/analytics/route.ts`).

Identifiers are Nat (uuids in the source), amounts are integer cents
(Nat where the source's zod schema forces a nonnegative integer, Int for
database bigint columns).
-/

deriving instance DecidableEq for Except

namespace FinanceTracker

/-- JS `String.prototype.toLowerCase`, character by character. -/
def strLower (s : String) : String := String.mk (s.data.map Char.toLower)

/-- Is `t` an infix of `s` (as character lists)? -/
def infixB (t s : List Char) : Bool :=
  match s with
  | [] => t.isEmpty
  | _ :: rest => t.isPrefixOf s || infixB t rest

/-- JS `s.includes(t)`: `t` occurs as a substring of `s`. -/
def strIncludes (s t : String) : Bool := infixB t.data s.data

/-- JS `String.prototype.trim` (strip whitespace from both ends). -/
def strTrim (s : String) : String :=
  String.mk (((s.data.dropWhile Char.isWhitespace).reverse.dropWhile Char.isWhitespace).reverse)

/-- JS truthiness for an optional string: `undefined`, `null` and `""` are falsy. -/
def strTruthy (s : Option String) : Option String :=
  match s with
  | none => none
  | some v => if v.isEmpty then none else some v

/-- `public.account_type` enum of `supabase/schema.sql`, plus the
`friends_owe` type the route queries with `getFirst("friends_owe")`. -/
inductive AccountType
  | checking
  | savings
  | credit_card
  | emergency_fund
  | income
  | expense
  | friends_owe
  deriving DecidableEq, Repr

/-- `public.entry_type` enum of `supabase/schema.sql`. -/
inductive EntryType
  | debit
  | credit
  deriving DecidableEq, Repr

/-- A row of `public.accounts` (`supabase/schema.sql`). -/
structure Account where
  id : Nat
  user_id : Nat
  account_name : String
  account_type : AccountType
  initial_balance_cents : Int
  is_active : Bool
  deriving DecidableEq, Repr

/-- The `parsed` object of the zod `schema` in
`src/app/api/transactions/create/route.ts` (fields that influence the
ledger; category/description-suggestion fields only feed lookups that do
not change the entries). -/
structure ParsedInput where
  transactionDate : String
  description : String
  amountCents : Nat
  direction : String
  paymentModeName : Option String
  accountId : Option Nat
  fromAccountId : Option Nat
  fromAccountName : Option String
  toAccountName : Option String
  friendShareCents : Option Nat
  friendWillReimburse : Option Bool
  isFriendRepayment : Option Bool
  isNecessary : Option Bool
  deriving DecidableEq, Repr

/-- The request body of the create route: `{ parsed, idempotencyKey? }`. -/
structure RequestBody where
  parsed : ParsedInput
  idempotencyKey : Option String
  deriving DecidableEq, Repr

/-- `MAX_TRANSACTION_AMOUNT` of the create route. -/
def MAX_TRANSACTION_AMOUNT : Nat := 10000000

/-- The movement kinds accepted by `z.enum(["expense", "income", "transfer"])`. -/
inductive Direction
  | expense
  | income
  | transfer
  deriving DecidableEq, Repr

/-- Parse the `direction` string against the zod enum of the create route. -/
def parseDirection (s : String) : Option Direction :=
  if s == "expense" then some Direction.expense
  else if s == "income" then some Direction.income
  else if s == "transfer" then some Direction.transfer
  else none

/-- The idempotency-key format check `/^[a-zA-Z0-9_-]{1,64}$/`. -/
def keyFormatOk (k : String) : Bool :=
  decide (1 ≤ k.length) && decide (k.length ≤ 64) &&
    k.data.all (fun c => c.isAlphanum || c == '_' || c == '-')

/-- The zod `schema.safeParse` success condition of the create route
(`transactionDate` at least 10 chars, `description` 1..500 chars,
`amountCents` a positive integer at most `MAX_TRANSACTION_AMOUNT`,
`direction` in the enum, well-formed optional idempotency key;
`friendShareCents` nonnegative holds by the Nat type). -/
def schemaOk (b : RequestBody) : Bool :=
  decide (10 ≤ b.parsed.transactionDate.length) &&
  decide (1 ≤ b.parsed.description.length) &&
  decide (b.parsed.description.length ≤ 500) &&
  decide (0 < b.parsed.amountCents) &&
  decide (b.parsed.amountCents ≤ MAX_TRANSACTION_AMOUNT) &&
  (parseDirection b.parsed.direction).isSome &&
  (match b.idempotencyKey with
   | none => true
   | some k => keyFormatOk k)

/-- An element of the `entries` array the route builds
(`{ account_id, entry_type, amount_cents }`). -/
structure BuiltEntry where
  account_id : Nat
  entry_type : EntryType
  amount_cents : Nat
  deriving DecidableEq, Repr

/-- `getFirst(t)` of the create route: first account (in `created_at`
order, which is the list order) of the given type. -/
def getFirst (accounts : List Account) (t : AccountType) : Option Nat :=
  (accounts.find? (fun a => a.account_type == t)).map (fun a => a.id)

/-- The internal/default account ids the route resolves up front. -/
structure Sinks where
  incomeAccountId : Nat
  expenseAccountId : Nat
  checkingAccountId : Nat
  friendsAccountId : Option Nat
  deriving DecidableEq, Repr

/-- `matched = matched || tryNext()`: the JS pattern
`if (!matched && cond) matched = ...` chained on an accumulator. -/
def orFind (m : Option Account) (f : Unit → Option Account) : Option Account :=
  match m with
  | some a => some a
  | none => f ()

/-- Payment-account resolution of the create route (lines 117-162): an
explicit `accountId` that resolves to an active account wins; otherwise
name heuristics on `paymentModeName`; otherwise the first checking
account. -/
def resolvePaymentAccount (p : ParsedInput) (accounts : List Account)
    (checkingAccountId : Nat) : Nat :=
  match p.accountId with
  | some aid =>
    match accounts.find? (fun a => a.id == aid && a.is_active) with
    | some a => a.id
    | none => checkingAccountId
  | none =>
    match strTruthy p.paymentModeName with
    | none => checkingAccountId
    | some pm =>
      let pmLower := strLower pm
      let m := accounts.find? (fun a => a.is_active && strLower a.account_name == pmLower)
      let m := orFind m (fun _ => accounts.find? (fun a =>
        a.is_active && (strIncludes (strLower a.account_name) pmLower ||
          strIncludes pmLower (strLower a.account_name))))
      let m := orFind m (fun _ =>
        if strIncludes pmLower "chase" && strIncludes pmLower "freedom" then
          accounts.find? (fun a => a.account_name == "Chase Freedom")
        else none)
      let m := orFind m (fun _ =>
        if strIncludes pmLower "amex" then
          accounts.find? (fun a => a.account_name == "Amex Gold")
        else none)
      let m := orFind m (fun _ =>
        if strIncludes pmLower "discover" then
          accounts.find? (fun a => a.account_name == "Discover it")
        else none)
      let m := orFind m (fun _ =>
        if strIncludes pmLower "credit" then
          accounts.find? (fun a => a.account_type == AccountType.credit_card && a.is_active)
        else none)
      match m with
      | some a => a.id
      | none => checkingAccountId

/-- The friend-share clamp of the create route:
`friendWillReimburse && friendShareCents ? Math.min(friendShareCents, amountCents) : 0`
(note JS truthiness: a zero share is falsy). -/
def clampedFriendShare (p : ParsedInput) : Nat :=
  match p.friendWillReimburse, p.friendShareCents with
  | some true, some fs => if fs == 0 then 0 else min fs p.amountCents
  | _, _ => 0

/-- Expense branch of the create route (lines 177-196). -/
def buildExpense (p : ParsedInput) (accounts : List Account) (s : Sinks) :
    List BuiltEntry :=
  let amountCents := p.amountCents
  let friendShareCents := clampedFriendShare p
  let personalShareCents := amountCents - friendShareCents
  let paymentAccountId := resolvePaymentAccount p accounts s.checkingAccountId
  let entries : List BuiltEntry := []
  let entries := if 0 < personalShareCents then
      entries ++ [⟨s.expenseAccountId, EntryType.debit, personalShareCents⟩]
    else entries
  let entries := if 0 < friendShareCents then
      match s.friendsAccountId with
      | some fid => entries ++ [⟨fid, EntryType.debit, friendShareCents⟩]
      | none => entries ++ [⟨s.expenseAccountId, EntryType.debit, friendShareCents⟩]
    else entries
  let entries := if entries.isEmpty then
      [⟨s.expenseAccountId, EntryType.debit, amountCents⟩]
    else entries
  entries ++ [⟨paymentAccountId, EntryType.credit, amountCents⟩]

/-- Receiving-account choice of the income branch (lines 198-210):
a valid explicitly selected account, else the resolved payment account
(`paymentAccountId || checkingAccountId` always yields `paymentAccountId`
since it is a non-empty id). -/
def resolveReceivingIncome (p : ParsedInput) (accounts : List Account)
    (paymentAccountId : Nat) : Nat :=
  match p.accountId with
  | some aid =>
    match accounts.find? (fun a => a.id == aid && a.is_active) with
    | some a => a.id
    | none => paymentAccountId
  | none => paymentAccountId

/-- Income branch of the create route (lines 197-215). -/
def buildIncome (p : ParsedInput) (accounts : List Account) (s : Sinks) :
    List BuiltEntry :=
  let paymentAccountId := resolvePaymentAccount p accounts s.checkingAccountId
  let receivingAccountId := resolveReceivingIncome p accounts paymentAccountId
  [⟨receivingAccountId, EntryType.debit, p.amountCents⟩,
   ⟨s.incomeAccountId, EntryType.credit, p.amountCents⟩]

/-- Errors returned by the create route before the RPC call. -/
inductive BuildError
  | invalidBody
  | missingAccounts
  | missingFriendsAccount
  | transferRequiresBoth
  | invalidAccount
  | transferSameAccount
  | invalidDirection
  deriving DecidableEq, Repr

/-- Receiving-account choice of the friend-repayment branch (lines 229-248). -/
def resolveReceivingRepayment (p : ParsedInput) (accounts : List Account)
    (checkingAccountId : Nat) : Nat :=
  match p.accountId with
  | some aid =>
    match accounts.find? (fun a => a.id == aid && a.is_active) with
    | some a => a.id
    | none => checkingAccountId
  | none =>
    match strTruthy p.paymentModeName with
    | some pm =>
      let pmLower := strLower pm
      match accounts.find? (fun a =>
          a.is_active && (strIncludes (strLower a.account_name) pmLower ||
            strIncludes pmLower (strLower a.account_name))) with
      | some a => a.id
      | none => checkingAccountId
    | none => checkingAccountId

/-- Friend-repayment branch of the create route (lines 216-253): requires
a `friends_owe` account, debits the receiving account and credits it. -/
def buildFriendRepayment (p : ParsedInput) (accounts : List Account) (s : Sinks) :
    Except BuildError (List BuiltEntry) :=
  match s.friendsAccountId with
  | none => Except.error BuildError.missingFriendsAccount
  | some fid =>
    let receivingAccountId := resolveReceivingRepayment p accounts s.checkingAccountId
    Except.ok [⟨receivingAccountId, EntryType.debit, p.amountCents⟩,
               ⟨fid, EntryType.credit, p.amountCents⟩]

/-- FROM-account auto-detection of the transfer branch (lines 260-297). -/
def autoDetectFrom (fromAccountName : String) (accounts : List Account) : Option Nat :=
  let fromName := strLower (strTrim fromAccountName)
  let m := accounts.find? (fun a => a.is_active && strLower a.account_name == fromName)
  let m := orFind m (fun _ => accounts.find? (fun a =>
    a.is_active && (strIncludes (strLower a.account_name) fromName ||
      strIncludes fromName (strLower a.account_name))))
  let m := orFind m (fun _ =>
    if strIncludes fromName "sofi" then
      orFind (accounts.find? (fun a => a.account_name == "SoFi Checking"))
        (fun _ => accounts.find? (fun a => strIncludes a.account_name "SoFi"))
    else none)
  let m := orFind m (fun _ =>
    if strIncludes fromName "chase" then
      orFind (accounts.find? (fun a => a.account_name == "Chase Checking"))
        (fun _ => accounts.find? (fun a =>
          strIncludes a.account_name "Chase" && a.account_type == AccountType.checking))
    else none)
  let m := orFind m (fun _ =>
    if strIncludes fromName "checking" then
      accounts.find? (fun a => a.account_type == AccountType.checking && a.is_active)
    else none)
  let m := orFind m (fun _ =>
    if strIncludes fromName "savings" then
      accounts.find? (fun a => a.account_type == AccountType.savings && a.is_active)
    else none)
  m.map (fun a => a.id)

/-- TO-account auto-detection of the transfer branch (lines 299-337). -/
def autoDetectTo (toAccountName : String) (accounts : List Account) : Option Nat :=
  let toName := strLower (strTrim toAccountName)
  let m := accounts.find? (fun a => a.is_active && strLower a.account_name == toName)
  let m := orFind m (fun _ => accounts.find? (fun a =>
    a.is_active && (strIncludes (strLower a.account_name) toName ||
      strIncludes toName (strLower a.account_name))))
  let m := orFind m (fun _ =>
    if strIncludes toName "chase" && strIncludes toName "freedom" then
      accounts.find? (fun a => a.account_name == "Chase Freedom")
    else none)
  let m := orFind m (fun _ =>
    if strIncludes toName "apple" then
      accounts.find? (fun a => a.account_name == "Apple Card")
    else none)
  let m := orFind m (fun _ =>
    if strIncludes toName "discover" then
      accounts.find? (fun a => a.account_name == "Discover it")
    else none)
  let m := orFind m (fun _ =>
    if strIncludes toName "amex" then
      accounts.find? (fun a => a.account_name == "Amex Gold")
    else none)
  let m := orFind m (fun _ =>
    if strIncludes toName "credit" || strIncludes toName "card" then
      accounts.find? (fun a => a.account_type == AccountType.credit_card && a.is_active)
    else none)
  m.map (fun a => a.id)

/-- The `fromAccountId` local of the transfer branch after auto-detection
(lines 256-297) and the checking-account default (lines 349-352, whose
guard `checkingAccountId` is always truthy since the route has already
required a checking account). -/
def resolveTransferFromId (p : ParsedInput) (accounts : List Account)
    (checkingAccountId : Nat) : Option Nat :=
  let fromId0 :=
    match p.fromAccountId with
    | some x => some x
    | none =>
      match strTruthy p.fromAccountName with
      | some n => autoDetectFrom n accounts
      | none => none
  match fromId0 with
  | some x => some x
  | none => some checkingAccountId

/-- The `toAccountId` local of the transfer branch after auto-detection
(lines 257, 299-337) and the credit-card fallback (lines 339-347). -/
def resolveTransferToId (p : ParsedInput) (accounts : List Account) : Option Nat :=
  let toId0 :=
    match p.accountId with
    | some x => some x
    | none =>
      match strTruthy p.toAccountName with
      | some n => autoDetectTo n accounts
      | none => none
  let creditHint :=
    (match (strTruthy p.paymentModeName).map strLower with
     | some pm => strIncludes pm "credit"
     | none => false) ||
    (match strTruthy p.toAccountName with
     | some n => strIncludes (strLower n) "credit"
     | none => false)
  match toId0 with
  | some x => some x
  | none =>
    if creditHint then
      (accounts.find? (fun (a : Account) => a.is_active &&
        (strIncludes (strLower a.account_name) "credit" ||
          a.account_type == AccountType.credit_card))).map (fun (a : Account) => a.id)
    else none

/-- Transfer branch of the create route (lines 254-394): resolve the two
accounts (with auto-detection and a checking default for the source),
then require both to exist, be active, and be distinct. -/
def buildTransfer (p : ParsedInput) (accounts : List Account) (s : Sinks) :
    Except BuildError (List BuiltEntry) :=
  match resolveTransferToId p accounts, resolveTransferFromId p accounts s.checkingAccountId with
  | none, _ => Except.error BuildError.transferRequiresBoth
  | _, none => Except.error BuildError.transferRequiresBoth
  | some toId, some fromId =>
    let fromAccount := accounts.find? (fun (a : Account) => a.id == fromId && a.is_active)
    let toAccount := accounts.find? (fun (a : Account) => a.id == toId && a.is_active)
    match fromAccount, toAccount with
    | some _, some _ =>
      if fromId == toId then Except.error BuildError.transferSameAccount
      else Except.ok [⟨toId, EntryType.debit, p.amountCents⟩,
                      ⟨fromId, EntryType.credit, p.amountCents⟩]
    | _, _ => Except.error BuildError.invalidAccount

/-- Entry construction of the `POST` handler after a successful schema
parse: the if/else-if chain of lines 177-397.  `accounts` is the user's
account list in `created_at` order (the route queries
`eq("user_id", user.id)` ordered ascending).  The friend-repayment test
sits between the income and transfer branches, so it fires exactly for
`direction == "transfer"` requests flagged `isFriendRepayment`; the
trailing `invalid_direction` branch is unreachable once the zod enum has
accepted the direction. -/
def buildCore (p : ParsedInput) (accounts : List Account) :
    Except BuildError (List BuiltEntry) :=
  match getFirst accounts AccountType.income, getFirst accounts AccountType.expense,
      getFirst accounts AccountType.checking with
  | some incomeAccountId, some expenseAccountId, some checkingAccountId =>
    let s : Sinks := ⟨incomeAccountId, expenseAccountId, checkingAccountId,
      getFirst accounts AccountType.friends_owe⟩
    match parseDirection p.direction with
    | some Direction.expense => Except.ok (buildExpense p accounts s)
    | some Direction.income => Except.ok (buildIncome p accounts s)
    | some Direction.transfer =>
      if p.isFriendRepayment == some true then buildFriendRepayment p accounts s
      else buildTransfer p accounts s
    | none => Except.error BuildError.invalidDirection
  | _, _, _ => Except.error BuildError.missingAccounts

/-- The Entry Builder: zod validation followed by entry construction. -/
def buildEntries (body : RequestBody) (accounts : List Account) :
    Except BuildError (List BuiltEntry) :=
  if schemaOk body then buildCore body.parsed accounts
  else Except.error BuildError.invalidBody

/-- Sum of the debit amounts of a built entry list. -/
def debitSumB (es : List BuiltEntry) : Nat :=
  ((es.filter (fun e => e.entry_type == EntryType.debit)).map
    (fun e => e.amount_cents)).sum

/-- Sum of the credit amounts of a built entry list. -/
def creditSumB (es : List BuiltEntry) : Nat :=
  ((es.filter (fun e => e.entry_type == EntryType.credit)).map
    (fun e => e.amount_cents)).sum

/-- A row of `public.transactions` (`supabase/schema.sql`, with the
soft-delete migration's `deleted_at` column; timestamps are Nat ticks). -/
structure TxRow where
  id : Nat
  user_id : Nat
  transaction_date : String
  description : String
  amount_cents : Int
  idempotency_key : Option String
  deleted_at : Option Nat
  deriving DecidableEq, Repr

/-- A row of `public.transaction_entries` (`supabase/schema.sql`). -/
structure EntryRow where
  transaction_id : Nat
  account_id : Nat
  entry_type : EntryType
  amount_cents : Int
  deriving DecidableEq, Repr

/-- The persistent store: the three ledger tables. -/
structure DB where
  accounts : List Account
  transactions : List TxRow
  entries : List EntryRow
  deriving DecidableEq, Repr

/-- One element of the `p_entries` jsonb array handed to the RPC. -/
structure EntryInput where
  account_id : Nat
  entry_type : EntryType
  amount_cents : Int
  deriving DecidableEq, Repr

/-- Debit sum of an RPC entry array (bigint arithmetic). -/
def inputDebitSum (es : List EntryInput) : Int :=
  ((es.filter (fun e => e.entry_type == EntryType.debit)).map
    (fun e => e.amount_cents)).sum

/-- Credit sum of an RPC entry array. -/
def inputCreditSum (es : List EntryInput) : Int :=
  ((es.filter (fun e => e.entry_type == EntryType.credit)).map
    (fun e => e.amount_cents)).sum

/-- Debit sum of the stored entries of one transaction, as computed by
`ensure_transaction_balanced` in `supabase/schema.sql`. -/
def txDebitSum (entries : List EntryRow) (txId : Nat) : Int :=
  ((entries.filter (fun e => e.transaction_id == txId &&
      e.entry_type == EntryType.debit)).map (fun e => e.amount_cents)).sum

/-- Credit sum of the stored entries of one transaction. -/
def txCreditSum (entries : List EntryRow) (txId : Nat) : Int :=
  ((entries.filter (fun e => e.transaction_id == txId &&
      e.entry_type == EntryType.credit)).map (fun e => e.amount_cents)).sum

/-- Every committed transaction satisfies the balance invariant of
`ensure_transaction_balanced`. -/
def dbBalancedB (db : DB) : Bool :=
  db.transactions.all (fun t => txDebitSum db.entries t.id == txCreditSum db.entries t.id)

/-- The `transactions_idempotency_unique` constraint of
`supabase/schema.sql`: inserting a keyed row fails iff the same
`(user_id, idempotency_key)` pair already exists (NULL keys never
collide, so multiple transactions may have no token). -/
def uniqueViolation (db : DB) (userId : Nat) (key : Option String) : Bool :=
  match key with
  | none => false
  | some k => db.transactions.any (fun t =>
      t.user_id == userId && t.idempotency_key == some k)

/-- The per-entry loop of `create_transaction_with_entries`
(`supabase/rpc.sql`): each entry must have a positive amount and an
account owned by the caller; on success it yields the rows to insert. -/
def insertEntriesLoop (db : DB) (v_user_id v_tx_id : Nat) :
    List EntryInput → Except String (List EntryRow)
  | [] => Except.ok []
  | e :: rest =>
    if e.amount_cents ≤ 0 then Except.error "entry amount_cents must be > 0"
    else if (db.accounts.find? (fun a =>
        a.id == e.account_id && a.user_id == v_user_id)).isNone then
      Except.error "account not found for user"
    else
      match insertEntriesLoop db v_user_id v_tx_id rest with
      | Except.error msg => Except.error msg
      | Except.ok rows =>
        Except.ok (⟨v_tx_id, e.account_id, e.entry_type, e.amount_cents⟩ :: rows)

/-- The Ledger Writer: `create_transaction_with_entries` of
`supabase/rpc.sql` (latest `CREATE OR REPLACE` form) run as one atomic
unit.  The header insert, the `(user_id, idempotency_key)` uniqueness
constraint, the per-entry checks and the deferred
`ensure_transaction_balanced` constraint trigger all happen inside the
same transaction, so any failure leaves the store unchanged (the caller
keeps the old `DB` on `Except.error`).  `v_tx_id` models the generated
uuid of the new header row. -/
def create_transaction_with_entries (db : DB) (auth_uid : Option Nat) (v_tx_id : Nat)
    (p_transaction_date : String) (p_description : String) (p_amount_cents : Int)
    (p_idempotency_key : Option String) (p_entries : List EntryInput) :
    Except String DB :=
  match auth_uid with
  | none => Except.error "Not authenticated"
  | some v_user_id =>
    if p_amount_cents ≤ 0 then Except.error "amount_cents must be > 0"
    else if uniqueViolation db v_user_id p_idempotency_key then
      Except.error "duplicate key value violates unique constraint"
    else
      match insertEntriesLoop db v_user_id v_tx_id p_entries with
      | Except.error msg => Except.error msg
      | Except.ok rows =>
        -- deferred constraint trigger: balance checked at the end of the unit
        if inputDebitSum p_entries == inputCreditSum p_entries then
          Except.ok { db with
            transactions := db.transactions ++
              [⟨v_tx_id, v_user_id, p_transaction_date, p_description,
                p_amount_cents, p_idempotency_key, none⟩],
            entries := db.entries ++ rows }
        else Except.error "Transaction is unbalanced"

/-- `delete_transaction` of the soft-delete migration: set `deleted_at`
on the caller's transaction with the given id; nothing else changes. -/
def delete_transaction (db : DB) (auth_uid : Option Nat) (p_transaction_id : Nat)
    (now : Nat) : Except String DB :=
  match auth_uid with
  | none => Except.error "Not authenticated"
  | some v_user_id =>
    Except.ok { db with
      transactions := db.transactions.map (fun t =>
        if t.id == p_transaction_id && t.user_id == v_user_id then
          { t with deleted_at := some now }
        else t) }

/-- `restore_transaction` of the soft-delete migration: clear `deleted_at`. -/
def restore_transaction (db : DB) (auth_uid : Option Nat) (p_transaction_id : Nat) :
    Except String DB :=
  match auth_uid with
  | none => Except.error "Not authenticated"
  | some v_user_id =>
    Except.ok { db with
      transactions := db.transactions.map (fun t =>
        if t.id == p_transaction_id && t.user_id == v_user_id then
          { t with deleted_at := none }
        else t) }

/-- One step of the balance fold of `calculateAccountBalances`
(`src/lib/calculateBalance.ts`): debits add, credits subtract,
identically for every account kind. -/
def applyEntry (balance : Int) (entry : EntryRow) : Int :=
  match entry.entry_type with
  | EntryType.debit => balance + entry.amount_cents
  | EntryType.credit => balance - entry.amount_cents

/-- Ids of the user's non-deleted transactions
(`.eq("user_id", userId).is("deleted_at", null)` in `calculateBalance.ts`). -/
def nonDeletedTxIds (db : DB) (userId : Nat) : List Nat :=
  (db.transactions.filter (fun t =>
    t.user_id == userId && t.deleted_at == none)).map (fun t => t.id)

/-- The entries fetched by the Balance Calculator: those whose
transaction is one of the user's non-deleted transactions. -/
def balanceEntries (db : DB) (userId : Nat) : List EntryRow :=
  db.entries.filter (fun e => (nonDeletedTxIds db userId).contains e.transaction_id)

/-- The per-account entry filter inside the final `map` of
`calculateAccountBalances`. -/
def accountEntriesFor (db : DB) (userId : Nat) (accountId : Nat) : List EntryRow :=
  (balanceEntries db userId).filter (fun e => e.account_id == accountId)

/-- The Balance Calculator: `calculateAccountBalances` of
`src/lib/calculateBalance.ts`, restricted to its pure core (the source's
early returns on transport errors are not modelled).  For each active
account of the user it folds `initial_balance_cents` through all its
entries belonging to non-deleted transactions. -/
def calculateAccountBalances (db : DB) (userId : Nat) : List (Account × Int) :=
  (db.accounts.filter (fun a => a.user_id == userId && a.is_active)).map
    (fun account =>
      (account, (accountEntriesFor db userId account.id).foldl applyEntry
        account.initial_balance_cents))

/-- Debit sum of a stored entry list. -/
def intDebitSum (es : List EntryRow) : Int :=
  ((es.filter (fun e => e.entry_type == EntryType.debit)).map
    (fun e => e.amount_cents)).sum

/-- Credit sum of a stored entry list. -/
def intCreditSum (es : List EntryRow) : Int :=
  ((es.filter (fun e => e.entry_type == EntryType.credit)).map
    (fun e => e.amount_cents)).sum

/-- Ids of ALL the user's transactions, soft-deleted ones included: the
balance query of the analytics route (`src/app/api/analytics/route.ts`
lines 84-89 selects `.eq("user_id", user.id)` with no `deleted_at`
filter, unlike `calculateBalance.ts`). -/
def allTransactionIds (db : DB) (userId : Nat) : List Nat :=
  (db.transactions.filter (fun t => t.user_id == userId)).map (fun t => t.id)

/-- The `allEntries` fetch of the analytics route (lines 90-96). -/
def analyticsAllEntries (db : DB) (userId : Nat) : List EntryRow :=
  db.entries.filter (fun e => (allTransactionIds db userId).contains e.transaction_id)

/-- The inline per-account balance fold of the analytics route (lines
98-119): the same `initial + debits - credits` step as the Balance
Calculator, but folded over the entries of ALL the user's transactions,
soft-deleted ones included. -/
def analyticsAccountBalances (db : DB) (userId : Nat) : List (Account × Int) :=
  (db.accounts.filter (fun a => a.user_id == userId)).map (fun acc =>
    (acc, ((analyticsAllEntries db userId).filter
      (fun e => e.account_id == acc.id)).foldl applyEntry acc.initial_balance_cents))

/-- The four derived directions (`TransactionDirection` of
`src/lib/types.ts`). -/
inductive TransactionDirection
  | expense
  | income
  | transfer
  | other
  deriving DecidableEq, Repr

/-- The entry scan of `deriveDirection` in
`src/app/api/transactions/list/route.ts`: for each entry in list order,
test expense-sink debit, then expense-sink credit, then income-sink
credit; the first entry matching any test decides.  The sink ids are
`string | null` in the source, modelled as `Option Nat` (a `null` sink
matches nothing). -/
def deriveListScan (incomeAccountId expenseAccountId : Option Nat) :
    List EntryRow → TransactionDirection
  | [] => TransactionDirection.transfer
  | entry :: rest =>
    if some entry.account_id == expenseAccountId && entry.entry_type == EntryType.debit then
      TransactionDirection.expense
    else if some entry.account_id == expenseAccountId && entry.entry_type == EntryType.credit then
      TransactionDirection.other
    else if some entry.account_id == incomeAccountId && entry.entry_type == EntryType.credit then
      TransactionDirection.income
    else deriveListScan incomeAccountId expenseAccountId rest

/-- `deriveDirection` of `src/app/api/transactions/list/route.ts`. -/
def deriveDirectionList (transactionId : Nat) (entries : List EntryRow)
    (incomeAccountId expenseAccountId : Option Nat) : TransactionDirection :=
  deriveListScan incomeAccountId expenseAccountId
    (entries.filter (fun e => e.transaction_id == transactionId))

/-- The entry scan of `deriveDirection` in `src/app/api/analytics/route.ts`:
identical, except that it has no expense-sink-credit (refund) test, so its
result type omits `other`. -/
def deriveAnalyticsScan (incomeAccountId expenseAccountId : Option Nat) :
    List EntryRow → TransactionDirection
  | [] => TransactionDirection.transfer
  | entry :: rest =>
    if some entry.account_id == expenseAccountId && entry.entry_type == EntryType.debit then
      TransactionDirection.expense
    else if some entry.account_id == incomeAccountId && entry.entry_type == EntryType.credit then
      TransactionDirection.income
    else deriveAnalyticsScan incomeAccountId expenseAccountId rest

/-- `deriveDirection` of `src/app/api/analytics/route.ts`. -/
def deriveDirectionAnalytics (transactionId : Nat) (entries : List EntryRow)
    (incomeAccountId expenseAccountId : Option Nat) : TransactionDirection :=
  deriveAnalyticsScan incomeAccountId expenseAccountId
    (entries.filter (fun e => e.transaction_id == transactionId))

/-- Responses of the create route that matter to the ledger. -/
inductive CreateResponse
  | cached (transactionId : Nat)
  | ok (transactionId : Nat)
  | clientError (e : BuildError)
  | rpcError (msg : String)
  deriving DecidableEq, Repr

/-- The idempotency lookup of the create route (lines 67-84):
`.eq("user_id", ...).eq("idempotency_key", clientKey).maybeSingle()`. -/
def lookupByIdempotencyKey (db : DB) (userId : Nat) (clientKey : String) :
    Option TxRow :=
  db.transactions.find? (fun t =>
    t.user_id == userId && t.idempotency_key == some clientKey)

/-- The tail of the `POST` handler once the idempotency fast path found
no prior transaction (route lines 86-443): entry construction over the
user's accounts followed by the RPC commit.  `finalIdempotencyKey` is
`clientKey || idempotencyKey()`, which short-circuits on the non-empty
client key. -/
def postCreateProceed (db : DB) (userId : Nat) (body : RequestBody)
    (newTxId : Nat) (finalIdempotencyKey : String) : DB × CreateResponse :=
  match buildCore body.parsed (db.accounts.filter (fun a => a.user_id == userId)) with
  | Except.error e => (db, CreateResponse.clientError e)
  | Except.ok entries =>
    match create_transaction_with_entries db (some userId) newTxId
        body.parsed.transactionDate body.parsed.description
        (body.parsed.amountCents : Int) (some finalIdempotencyKey)
        (entries.map (fun e =>
          ⟨e.account_id, e.entry_type, (e.amount_cents : Int)⟩)) with
    | Except.error msg => (db, CreateResponse.rpcError msg)
    | Except.ok db2 => (db2, CreateResponse.ok newTxId)

/-- The whole `createTransaction` operation (`POST` of
`src/app/api/transactions/create/route.ts`, sequential execution): zod
parse, the idempotency fast path of lines 65-84, then
`postCreateProceed`.  `newTxId` models the generated header uuid and
`generatedKey` the server-generated fallback idempotency key, used only
when the client sent none. -/
def postCreateTransaction (db : DB) (userId : Nat) (body : RequestBody)
    (newTxId : Nat) (generatedKey : String) : DB × CreateResponse :=
  if schemaOk body then
    match body.idempotencyKey with
    | some clientKey =>
      match lookupByIdempotencyKey db userId clientKey with
      | some existing => (db, CreateResponse.cached existing.id)
      | none => postCreateProceed db userId body newTxId clientKey
    | none => postCreateProceed db userId body newTxId generatedKey
  else (db, CreateResponse.clientError BuildError.invalidBody)

/-- A transaction row with its soft-delete timestamp blanked, for frame
statements about delete/restore. -/
def stripDeletedAt (t : TxRow) : TxRow := { t with deleted_at := none }

/-- A sample account set for user 7, in creation order: the two internal
sinks, a checking account, a savings account and a friends-owe account. -/
def acctsW : List Account :=
  [⟨1, 7, "_Income", AccountType.income, 0, true⟩,
   ⟨2, 7, "_Expenses", AccountType.expense, 0, true⟩,
   ⟨3, 7, "SoFi Checking", AccountType.checking, 100000, true⟩,
   ⟨4, 7, "Chase Savings", AccountType.savings, 50000, true⟩,
   ⟨5, 7, "Friends Owe Me", AccountType.friends_owe, 0, true⟩]

/-- The same account set without a friends-owe account. -/
def acctsNoFriends : List Account :=
  [⟨1, 7, "_Income", AccountType.income, 0, true⟩,
   ⟨2, 7, "_Expenses", AccountType.expense, 0, true⟩,
   ⟨3, 7, "SoFi Checking", AccountType.checking, 100000, true⟩]

/- ------------------------------------------------------------------ -/
/- Scan lemmas for the Direction Derivers                              -/
/- ------------------------------------------------------------------ -/

theorem deriveListScan_other (inc exp : Option Nat) (l : List EntryRow)
    (hd : ∀ e ∈ l, ¬(some e.account_id = exp ∧ e.entry_type = EntryType.debit))
    (hi : ∀ e ∈ l, ¬(some e.account_id = inc ∧ e.entry_type = EntryType.credit))
    (hc : ∃ e ∈ l, some e.account_id = exp ∧ e.entry_type = EntryType.credit) :
    deriveListScan inc exp l = TransactionDirection.other := by
  induction l with
  | nil => obtain ⟨e, he, _⟩ := hc; exact absurd he (List.not_mem_nil e)
  | cons a rest ih =>
    have ha := hd a (List.mem_cons_self a rest)
    rw [deriveListScan]
    by_cases h1 : some a.account_id = exp ∧ a.entry_type = EntryType.debit
    · exact absurd h1 ha
    · have hb1 : (some a.account_id == exp && a.entry_type == EntryType.debit) = false := by
        simp only [Bool.and_eq_false_iff, beq_eq_false_iff_ne, ne_eq]
        by_cases hx : some a.account_id = exp
        · right; intro hy; exact h1 ⟨hx, hy⟩
        · left; exact hx
      rw [hb1]
      simp only [Bool.false_eq_true, if_false]
      by_cases h2 : some a.account_id = exp ∧ a.entry_type = EntryType.credit
      · have hb2 : (some a.account_id == exp && a.entry_type == EntryType.credit) = true := by
          simp only [Bool.and_eq_true, beq_iff_eq]; exact h2
        rw [hb2]; simp
      · have hb2 : (some a.account_id == exp && a.entry_type == EntryType.credit) = false := by
          simp only [Bool.and_eq_false_iff, beq_eq_false_iff_ne, ne_eq]
          by_cases hx : some a.account_id = exp
          · right; intro hy; exact h2 ⟨hx, hy⟩
          · left; exact hx
        rw [hb2]
        simp only [Bool.false_eq_true, if_false]
        have hai := hi a (List.mem_cons_self a rest)
        have hb3 : (some a.account_id == inc && a.entry_type == EntryType.credit) = false := by
          simp only [Bool.and_eq_false_iff, beq_eq_false_iff_ne, ne_eq]
          by_cases hx : some a.account_id = inc
          · right; intro hy; exact hai ⟨hx, hy⟩
          · left; exact hx
        rw [hb3]
        simp only [Bool.false_eq_true, if_false]
        refine ih (fun e he => hd e (List.mem_cons_of_mem a he))
          (fun e he => hi e (List.mem_cons_of_mem a he)) ?_
        obtain ⟨e, he, hprop⟩ := hc
        rcases List.mem_cons.mp he with rfl | htail
        · exact absurd hprop h2
        · exact ⟨e, htail, hprop⟩

theorem deriveAnalyticsScan_transfer (inc exp : Option Nat) (l : List EntryRow)
    (hd : ∀ e ∈ l, ¬(some e.account_id = exp ∧ e.entry_type = EntryType.debit))
    (hi : ∀ e ∈ l, ¬(some e.account_id = inc ∧ e.entry_type = EntryType.credit)) :
    deriveAnalyticsScan inc exp l = TransactionDirection.transfer := by
  induction l with
  | nil => rfl
  | cons a rest ih =>
    have ha := hd a (List.mem_cons_self a rest)
    have hai := hi a (List.mem_cons_self a rest)
    rw [deriveAnalyticsScan]
    have hb1 : (some a.account_id == exp && a.entry_type == EntryType.debit) = false := by
      simp only [Bool.and_eq_false_iff, beq_eq_false_iff_ne, ne_eq]
      by_cases hx : some a.account_id = exp
      · right; intro hy; exact ha ⟨hx, hy⟩
      · left; exact hx
    have hb2 : (some a.account_id == inc && a.entry_type == EntryType.credit) = false := by
      simp only [Bool.and_eq_false_iff, beq_eq_false_iff_ne, ne_eq]
      by_cases hx : some a.account_id = inc
      · right; intro hy; exact hai ⟨hx, hy⟩
      · left; exact hx
    rw [hb1, hb2]
    simp only [Bool.false_eq_true, if_false]
    exact ih (fun e he => hd e (List.mem_cons_of_mem a he))
      (fun e he => hi e (List.mem_cons_of_mem a he))

/-- C5 counterexample.  The claim's precedence says any expense-sink
debit yields `Expense`, and an expense-sink-credit-only transaction is
never `Transfer`.  With income sink 1 and expense sink 2: transaction 9
holds an income-sink credit followed by an expense-sink debit, yet the
listing deriver returns `income` (the scan is per entry in list order,
not by the claimed precedence); and on a transaction whose only
internal-account touch is an expense-sink credit, the analytics deriver
returns `transfer`. -/
theorem c5_direction_precedence_cex :
    (∃ e ∈ [EntryRow.mk 9 1 EntryType.credit 500, EntryRow.mk 9 2 EntryType.debit 500],
        e.account_id = 2 ∧ e.entry_type = EntryType.debit) ∧
    deriveDirectionList 9
      [EntryRow.mk 9 1 EntryType.credit 500, EntryRow.mk 9 2 EntryType.debit 500]
      (some 1) (some 2) = TransactionDirection.income ∧
    deriveDirectionAnalytics 9 [EntryRow.mk 9 2 EntryType.credit 500]
      (some 1) (some 2) = TransactionDirection.transfer := by
  refine ⟨⟨EntryRow.mk 9 2 EntryType.debit 500, ?_, rfl, rfl⟩, by decide, by decide⟩
  simp

/-- C5 (amended): the derivers check each entry in list order, so the
stated precedence governs the tests applied to a single entry, not
conflicting signals spread over several entries.  For a transaction with
no expense-sink debit and no income-sink credit but some expense-sink
credit, the listing `deriveDirection` returns `other`, while the
analytics `deriveDirection`, which lacks the refund test, returns
`transfer`. -/
theorem c5_direction_deriver (transactionId : Nat) (entries : List EntryRow)
    (inc exp : Option Nat)
    (hd : ∀ e ∈ entries, e.transaction_id = transactionId →
      ¬(some e.account_id = exp ∧ e.entry_type = EntryType.debit))
    (hi : ∀ e ∈ entries, e.transaction_id = transactionId →
      ¬(some e.account_id = inc ∧ e.entry_type = EntryType.credit))
    (hc : ∃ e ∈ entries, e.transaction_id = transactionId ∧
      some e.account_id = exp ∧ e.entry_type = EntryType.credit) :
    deriveDirectionList transactionId entries inc exp = TransactionDirection.other ∧
    deriveDirectionAnalytics transactionId entries inc exp = TransactionDirection.transfer := by
  have hmem : ∀ e, e ∈ entries.filter (fun e => e.transaction_id == transactionId) ↔
      e ∈ entries ∧ e.transaction_id = transactionId := by
    intro e
    rw [List.mem_filter]
    simp only [beq_iff_eq]
  constructor
  · exact deriveListScan_other inc exp _
      (fun e he => hd e ((hmem e).mp he).1 ((hmem e).mp he).2)
      (fun e he => hi e ((hmem e).mp he).1 ((hmem e).mp he).2)
      (by obtain ⟨e, he, ht, hp⟩ := hc; exact ⟨e, (hmem e).mpr ⟨he, ht⟩, hp⟩)
  · exact deriveAnalyticsScan_transfer inc exp _
      (fun e he => hd e ((hmem e).mp he).1 ((hmem e).mp he).2)
      (fun e he => hi e ((hmem e).mp he).1 ((hmem e).mp he).2)

/-- Witness for C5 (amended) at a concrete refund-shaped transaction:
transaction 9 debits checking (account 3) and credits the expense sink
(account 2); the listing deriver says `other`, the analytics deriver
says `transfer`. -/
theorem c5_direction_deriver_witness :
    deriveDirectionList 9
      [EntryRow.mk 9 3 EntryType.debit 4219, EntryRow.mk 9 2 EntryType.credit 4219]
      (some 1) (some 2) = TransactionDirection.other ∧
    deriveDirectionAnalytics 9
      [EntryRow.mk 9 3 EntryType.debit 4219, EntryRow.mk 9 2 EntryType.credit 4219]
      (some 1) (some 2) = TransactionDirection.transfer :=
  c5_direction_deriver 9
    [EntryRow.mk 9 3 EntryType.debit 4219, EntryRow.mk 9 2 EntryType.credit 4219]
    (some 1) (some 2) (by decide) (by decide)
    ⟨EntryRow.mk 9 2 EntryType.credit 4219, by simp, rfl, rfl, rfl⟩

/-- C6: the repository's refund-reversal path is broken.  The categorize
route and the repository's own refund documentation say a refund is
submitted with `direction = "other"` and must commit the two-entry
reversal (debit the receiving account, credit the expense sink), but the
create route's zod enum accepts only expense/income/transfer, so the
refund request is rejected as `invalid_body` before any entry is built:
here a 10000-cent refund to checking against `acctsW` fails even though
all default accounts exist. -/
theorem c6_refund_reversal_rejected :
    parseDirection "other" = none ∧
    buildEntries
      ⟨⟨"2026-01-05", "Amazon refund", 10000, "other", none, some 3, none, none,
        none, none, none, none, none⟩, none⟩ acctsW =
      Except.error BuildError.invalidBody := by
  constructor
  · rfl
  · decide

/- ------------------------------------------------------------------ -/
/- Balance Calculator                                                  -/
/- ------------------------------------------------------------------ -/

theorem foldl_applyEntry (l : List EntryRow) (init : Int) :
    l.foldl applyEntry init = init + intDebitSum l - intCreditSum l := by
  induction l generalizing init with
  | nil => simp [intDebitSum, intCreditSum]
  | cons e rest ih =>
    rw [List.foldl_cons, ih]
    cases he : e.entry_type <;>
      simp [intDebitSum, intCreditSum, applyEntry, he, List.filter_cons] <;> ring

/-- The Balance Calculator proper (`calculateAccountBalances` of
`src/lib/calculateBalance.ts`) does implement the documented contract:
every balance it reports is `initial_balance_cents + sum(debits) -
sum(credits)` over exactly the account's entries belonging to the
user's non-deleted transactions, the same formula for every account
kind (the statement quantifies over an arbitrary account, so no
per-kind branching occurs).  Supporting evidence for C4, whose claim
the analytics route's separate fold violates (see
`c4_analytics_deleted_fold_divergence`). -/
theorem calculateAccountBalances_formula (db : DB) (userId : Nat) (account : Account) (bal : Int)
    (h : (account, bal) ∈ calculateAccountBalances db userId) :
    bal = account.initial_balance_cents +
        intDebitSum (accountEntriesFor db userId account.id) -
        intCreditSum (accountEntriesFor db userId account.id) ∧
    (∀ e ∈ accountEntriesFor db userId account.id,
      ∃ t ∈ db.transactions, t.id = e.transaction_id ∧ t.user_id = userId ∧
        t.deleted_at = none) := by
  constructor
  · obtain ⟨a, _, heq⟩ := List.mem_map.mp h
    obtain ⟨rfl, rfl⟩ : a = account ∧
        (accountEntriesFor db userId a.id).foldl applyEntry a.initial_balance_cents = bal := by
      exact ⟨congrArg Prod.fst heq, congrArg Prod.snd heq⟩
    exact foldl_applyEntry _ _
  · intro e he
    have he2 : e ∈ balanceEntries db userId :=
      (List.mem_filter.mp he).1
    have he3 := List.mem_filter.mp he2
    have hcontains : e.transaction_id ∈ nonDeletedTxIds db userId := by
      have := he3.2
      simpa using this
    obtain ⟨t, ht, htid⟩ := List.mem_map.mp hcontains
    have ht2 := List.mem_filter.mp ht
    refine ⟨t, ht2.1, htid, ?_, ?_⟩
    · have := ht2.2
      simp only [Bool.and_eq_true, beq_iff_eq] at this
      exact this.1
    · have := ht2.2
      simp only [Bool.and_eq_true, beq_iff_eq] at this
      exact this.2

/-- The liability card account of the spec's balance round-trip
(starting balance -50000 cents). -/
def cardAcct : Account :=
  ⟨6, 7, "Chase Freedom", AccountType.credit_card, -50000, true⟩

/-- Store holding the card and one committed debit of 10000 against it. -/
def dbCardDebit : DB :=
  ⟨[cardAcct],
   [⟨10, 7, "2026-01-01", "card payment", 10000, none, none⟩],
   [⟨10, 6, EntryType.debit, 10000⟩]⟩

/-- Store holding the card, the debit of 10000 and a later credit of 2000. -/
def dbCardDebitCredit : DB :=
  ⟨[cardAcct],
   [⟨10, 7, "2026-01-01", "card payment", 10000, none, none⟩,
    ⟨11, 7, "2026-01-02", "card purchase", 2000, none, none⟩],
   [⟨10, 6, EntryType.debit, 10000⟩, ⟨11, 6, EntryType.credit, 2000⟩]⟩

/-- The spec's balance round-trip at the Balance Calculator proper:
starting at -50000, the debit of 10000 yields -40000; adding the credit
of 2000 yields -42000, and the -42000 instance satisfies the formula of
`calculateAccountBalances_formula`. -/
theorem calculateAccountBalances_formula_instance :
    (cardAcct, (-40000 : Int)) ∈ calculateAccountBalances dbCardDebit 7 ∧
    (cardAcct, (-42000 : Int)) ∈ calculateAccountBalances dbCardDebitCredit 7 ∧
    ((-42000 : Int) = cardAcct.initial_balance_cents +
        intDebitSum (accountEntriesFor dbCardDebitCredit 7 cardAcct.id) -
        intCreditSum (accountEntriesFor dbCardDebitCredit 7 cardAcct.id) ∧
      (∀ e ∈ accountEntriesFor dbCardDebitCredit 7 cardAcct.id,
        ∃ t ∈ dbCardDebitCredit.transactions, t.id = e.transaction_id ∧
          t.user_id = 7 ∧ t.deleted_at = none)) :=
  ⟨by decide, by decide,
    calculateAccountBalances_formula dbCardDebitCredit 7 cardAcct (-42000) (by decide)⟩

/- ------------------------------------------------------------------ -/
/- Soft delete / restore                                               -/
/- ------------------------------------------------------------------ -/

/-- C9: `delete_transaction` only stamps `deleted_at` and
`restore_transaction` only clears it.  Both leave the entries table and
the accounts table untouched, keep every transaction row (same list up
to the `deleted_at` field, hence same length, ids, dates, descriptions,
amounts and idempotency keys), and set/clear the timestamp on the
caller's row with the given id.  Balances therefore change only through
the non-deleted filter of the Balance Calculator's fold
(`balanceEntries` keys on `deleted_at` alone). -/
theorem c9_soft_delete_restore_frame (db : DB) (uid txId now : Nat) (db1 db2 : DB)
    (h1 : delete_transaction db (some uid) txId now = Except.ok db1)
    (h2 : restore_transaction db (some uid) txId = Except.ok db2) :
    db1.entries = db.entries ∧ db1.accounts = db.accounts ∧
    db1.transactions.map stripDeletedAt = db.transactions.map stripDeletedAt ∧
    (∀ t ∈ db1.transactions, t.id = txId → t.user_id = uid → t.deleted_at = some now) ∧
    db2.entries = db.entries ∧ db2.accounts = db.accounts ∧
    db2.transactions.map stripDeletedAt = db.transactions.map stripDeletedAt ∧
    (∀ t ∈ db2.transactions, t.id = txId → t.user_id = uid → t.deleted_at = none) := by
  have e1 : db1 = { db with transactions := db.transactions.map (fun t =>
      if t.id == txId && t.user_id == uid then { t with deleted_at := some now } else t) } := by
    simpa [delete_transaction] using h1.symm
  have e2 : db2 = { db with transactions := db.transactions.map (fun t =>
      if t.id == txId && t.user_id == uid then { t with deleted_at := none } else t) } := by
    simpa [restore_transaction] using h2.symm
  subst e1; subst e2
  refine ⟨rfl, rfl, ?_, ?_, rfl, rfl, ?_, ?_⟩
  · rw [List.map_map]
    refine List.map_congr_left (fun t _ => ?_)
    simp only [Function.comp_apply]
    by_cases hc : (t.id == txId && t.user_id == uid) = true
    · rw [if_pos hc]; rfl
    · rw [if_neg hc]
  · intro t ht hid huid
    obtain ⟨s, _, hs⟩ := List.mem_map.mp ht
    by_cases hc : (s.id == txId && s.user_id == uid) = true
    · rw [if_pos hc] at hs; rw [← hs]
    · rw [if_neg hc] at hs
      subst hs
      simp only [Bool.and_eq_true, beq_iff_eq] at hc
      exact absurd ⟨hid, huid⟩ hc
  · rw [List.map_map]
    refine List.map_congr_left (fun t _ => ?_)
    simp only [Function.comp_apply]
    by_cases hc : (t.id == txId && t.user_id == uid) = true
    · rw [if_pos hc]; rfl
    · rw [if_neg hc]
  · intro t ht hid huid
    obtain ⟨s, _, hs⟩ := List.mem_map.mp ht
    by_cases hc : (s.id == txId && s.user_id == uid) = true
    · rw [if_pos hc] at hs; rw [← hs]
    · rw [if_neg hc] at hs
      subst hs
      simp only [Bool.and_eq_true, beq_iff_eq] at hc
      exact absurd ⟨hid, huid⟩ hc

/-- The card store after soft-deleting transaction 10 at time 99. -/
def dbCardDeleted : DB :=
  ⟨[cardAcct],
   [⟨10, 7, "2026-01-01", "card payment", 10000, none, some 99⟩],
   [⟨10, 6, EntryType.debit, 10000⟩]⟩

/-- Witness for C9 at the concrete card store: deleting transaction 10
(and restoring on the untouched store) keeps entries and headers intact. -/
theorem c9_soft_delete_restore_frame_witness :
    dbCardDeleted.entries = dbCardDebit.entries ∧
    dbCardDeleted.accounts = dbCardDebit.accounts ∧
    dbCardDeleted.transactions.map stripDeletedAt =
        dbCardDebit.transactions.map stripDeletedAt ∧
    (∀ t ∈ dbCardDeleted.transactions, t.id = 10 → t.user_id = 7 →
      t.deleted_at = some 99) ∧
    dbCardDebit.entries = dbCardDebit.entries ∧
    dbCardDebit.accounts = dbCardDebit.accounts ∧
    dbCardDebit.transactions.map stripDeletedAt =
        dbCardDebit.transactions.map stripDeletedAt ∧
    (∀ t ∈ dbCardDebit.transactions, t.id = 10 → t.user_id = 7 →
      t.deleted_at = none) :=
  c9_soft_delete_restore_frame dbCardDebit 7 10 99 dbCardDeleted dbCardDebit
    (by decide) (by decide)

/-- C4 failing input: user 7's card account (initial -50000) together
with one soft-deleted transaction (id 10, `deleted_at = 99`) whose
entry debits the card 10000.  The Balance Calculator
(`calculateBalance.ts`) excludes the deleted transaction and reports
-50000, but the analytics route's inline fold, which queries the
user's transactions with no `deleted_at` filter, reports -40000: the
soft-deleted transaction moves the balances analytics serves,
contradicting the non-deleted-only fold that the claim, spec section
4.5 and `calculateBalance.ts`'s own "Deleted transactions should NOT
affect balances" comment require. -/
theorem c4_analytics_deleted_fold_divergence :
    (cardAcct, (-50000 : Int)) ∈ calculateAccountBalances dbCardDeleted 7 ∧
    (cardAcct, (-40000 : Int)) ∈ analyticsAccountBalances dbCardDeleted 7 ∧
    (∃ t ∈ dbCardDeleted.transactions, t.id = 10 ∧ t.deleted_at = some 99) :=
  ⟨by decide, by decide, by decide⟩

/- ------------------------------------------------------------------ -/
/- Entry Builder                                                       -/
/- ------------------------------------------------------------------ -/

theorem clampedFriendShare_le (p : ParsedInput) :
    clampedFriendShare p ≤ p.amountCents := by
  unfold clampedFriendShare
  split
  · split
    · exact Nat.zero_le _
    · exact Nat.min_le_right _ _
  · exact Nat.zero_le _

theorem debitSumB_append (l1 l2 : List BuiltEntry) :
    debitSumB (l1 ++ l2) = debitSumB l1 + debitSumB l2 := by
  simp [debitSumB, List.filter_append]

theorem creditSumB_append (l1 l2 : List BuiltEntry) :
    creditSumB (l1 ++ l2) = creditSumB l1 + creditSumB l2 := by
  simp [creditSumB, List.filter_append]

theorem buildExpense_sums (p : ParsedInput) (accounts : List Account) (s : Sinks) :
    debitSumB (buildExpense p accounts s) = p.amountCents ∧
    creditSumB (buildExpense p accounts s) = p.amountCents := by
  have hle := clampedFriendShare_le p
  by_cases h1 : 0 < p.amountCents - clampedFriendShare p <;>
    by_cases h2 : 0 < clampedFriendShare p <;>
    cases hf : s.friendsAccountId <;>
    simp [buildExpense, h1, h2, hf, debitSumB, creditSumB, List.filter_cons] <;>
    omega

theorem buildExpense_ne_nil (p : ParsedInput) (accounts : List Account) (s : Sinks) :
    buildExpense p accounts s ≠ [] := by
  unfold buildExpense
  simp

theorem buildFriendRepayment_ok (p : ParsedInput) (accounts : List Account) (s : Sinks)
    (es : List BuiltEntry) (h : buildFriendRepayment p accounts s = Except.ok es) :
    ∃ fid, s.friendsAccountId = some fid ∧
      es = [⟨resolveReceivingRepayment p accounts s.checkingAccountId,
              EntryType.debit, p.amountCents⟩,
            ⟨fid, EntryType.credit, p.amountCents⟩] := by
  unfold buildFriendRepayment at h
  cases hfid : s.friendsAccountId with
  | none => rw [hfid] at h; exact absurd h (by simp)
  | some fid =>
    rw [hfid] at h
    exact ⟨fid, rfl, (Except.ok.inj h).symm⟩

theorem buildTransfer_ok (p : ParsedInput) (accounts : List Account) (s : Sinks)
    (es : List BuiltEntry) (h : buildTransfer p accounts s = Except.ok es) :
    ∃ toId fromId,
      resolveTransferToId p accounts = some toId ∧
      resolveTransferFromId p accounts s.checkingAccountId = some fromId ∧
      es = [⟨toId, EntryType.debit, p.amountCents⟩,
            ⟨fromId, EntryType.credit, p.amountCents⟩] ∧
      toId ≠ fromId ∧
      (accounts.find? (fun a => a.id == toId && a.is_active)).isSome = true ∧
      (accounts.find? (fun a => a.id == fromId && a.is_active)).isSome = true := by
  unfold buildTransfer at h
  cases hto : resolveTransferToId p accounts with
  | none => rw [hto] at h; exact absurd h (by simp)
  | some toId =>
    cases hfrom : resolveTransferFromId p accounts s.checkingAccountId with
    | none => rw [hto, hfrom] at h; exact absurd h (by simp)
    | some fromId =>
      rw [hto, hfrom] at h
      cases hfa : accounts.find? (fun (a : Account) => a.id == fromId && a.is_active) with
      | none =>
        cases hta : accounts.find? (fun (a : Account) => a.id == toId && a.is_active) with
        | none => simp only [hfa, hta] at h; exact absurd h (by simp)
        | some b => simp only [hfa, hta] at h; exact absurd h (by simp)
      | some a =>
        cases hta : accounts.find? (fun (a : Account) => a.id == toId && a.is_active) with
        | none => simp only [hfa, hta] at h; exact absurd h (by simp)
        | some b =>
          simp only [hfa, hta] at h
          split at h
          · exact absurd h (by simp)
          · rename_i hne
            refine ⟨toId, fromId, rfl, rfl, (Except.ok.inj h).symm, ?_, ?_, ?_⟩
            · intro hcontra
              exact hne (by simp [hcontra])
            · rw [hta]; rfl
            · rw [hfa]; rfl

theorem buildTransfer_self_loop (p : ParsedInput) (accounts : List Account) (s : Sinks)
    (x : Nat) (hf : p.fromAccountId = some x) (ht : p.accountId = some x) :
    ∀ es, buildTransfer p accounts s ≠ Except.ok es := by
  intro es h
  obtain ⟨toId, fromId, hto2, hfrom2, _, hne, _, _⟩ := buildTransfer_ok p accounts s es h
  have h1 : resolveTransferToId p accounts = some x := by
    simp [resolveTransferToId, ht]
  have h2 : resolveTransferFromId p accounts s.checkingAccountId = some x := by
    simp [resolveTransferFromId, hf]
  rw [h1] at hto2
  rw [h2] at hfrom2
  cases hto2
  cases hfrom2
  exact hne rfl

/-- C2: every entry list the Entry Builder hands to the Ledger Writer is
non-empty and its debit sum equals its credit sum exactly, in Nat
arithmetic, whatever the movement kind (expense, income, transfer, or
friend settlement). -/
theorem c2_builder_balanced (body : RequestBody) (accounts : List Account)
    (es : List BuiltEntry) (h : buildEntries body accounts = Except.ok es) :
    es ≠ [] ∧ debitSumB es = creditSumB es := by
  unfold buildEntries at h
  split at h
  · unfold buildCore at h
    split at h
    · split at h
      · rename_i hdir
        obtain rfl : buildExpense body.parsed accounts _ = es := Except.ok.inj h
        exact ⟨buildExpense_ne_nil _ _ _,
          (buildExpense_sums _ _ _).1.trans (buildExpense_sums _ _ _).2.symm⟩
      · rename_i hdir
        obtain rfl : buildIncome body.parsed accounts _ = es := Except.ok.inj h
        refine ⟨by simp [buildIncome], ?_⟩
        simp [buildIncome, debitSumB, creditSumB, List.filter_cons]
      · rename_i hdir
        split at h
        · obtain ⟨fid, _, rfl⟩ := buildFriendRepayment_ok _ _ _ _ h
          refine ⟨by simp, ?_⟩
          simp [debitSumB, creditSumB, List.filter_cons]
        · obtain ⟨toId, fromId, _, _, rfl, _, _, _⟩ := buildTransfer_ok _ _ _ _ h
          refine ⟨by simp, ?_⟩
          simp [debitSumB, creditSumB, List.filter_cons]
      · exact absurd h (by simp)
    · exact absurd h (by simp)
  · exact absurd h (by simp)

/-- A concrete expense of 10000 cents paid from the checking account:
the entry list the builder produces for it. -/
def esExpenseW : List BuiltEntry :=
  [⟨2, EntryType.debit, 10000⟩, ⟨3, EntryType.credit, 10000⟩]

/-- Witness for C2 at a concrete expense request against `acctsW`. -/
theorem c2_builder_balanced_witness :
    esExpenseW ≠ [] ∧ debitSumB esExpenseW = creditSumB esExpenseW :=
  c2_builder_balanced
    ⟨⟨"2026-01-02", "coffee", 10000, "expense", none, none, none, none, none,
      none, none, none, none⟩, none⟩ acctsW esExpenseW (by decide)

theorem schemaOk_amount_pos (b : RequestBody) (h : schemaOk b = true) :
    0 < b.parsed.amountCents := by
  simp only [schemaOk, Bool.and_eq_true, decide_eq_true_eq] at h
  exact h.1.1.1.2

theorem buildExpense_props (p : ParsedInput) (accounts : List Account) (s : Sinks) :
    (∃ pid, (buildExpense p accounts s).filter
        (fun e => e.entry_type == EntryType.credit) =
      [⟨pid, EntryType.credit, p.amountCents⟩]) ∧
    (buildExpense p accounts s).filter (fun e => e.entry_type == EntryType.debit) ≠ [] ∧
    (0 < p.amountCents - clampedFriendShare p →
      BuiltEntry.mk s.expenseAccountId EntryType.debit
        (p.amountCents - clampedFriendShare p) ∈ buildExpense p accounts s) ∧
    (0 < clampedFriendShare p →
      (∀ fid, s.friendsAccountId = some fid →
        BuiltEntry.mk fid EntryType.debit (clampedFriendShare p) ∈
          buildExpense p accounts s) ∧
      (s.friendsAccountId = none →
        BuiltEntry.mk s.expenseAccountId EntryType.debit (clampedFriendShare p) ∈
          buildExpense p accounts s)) := by
  by_cases h1 : 0 < p.amountCents - clampedFriendShare p <;>
    by_cases h2 : 0 < clampedFriendShare p <;>
    cases hf : s.friendsAccountId <;>
    refine ⟨⟨resolvePaymentAccount p accounts s.checkingAccountId, ?_⟩, ?_, ?_, ?_⟩ <;>
    simp [buildExpense, h1, h2, hf, List.filter_cons]

/-- C7: for every successfully built expense movement, the friend share
is clamped to at most the total; exactly one credit entry is emitted, to
the resolved payment account for the full total; at least one debit
entry is always emitted; the personal share is debited to the expense
sink when positive; a positive friend share is debited to the
friends-owe account when one exists and to the expense sink otherwise;
and when the share equals the total with no friends-owe account, the
expense sink is debited for the full total. -/
theorem c7_expense_split_clamp (body : RequestBody) (accounts : List Account)
    (es : List BuiltEntry)
    (hdir : body.parsed.direction = "expense")
    (h : buildEntries body accounts = Except.ok es) :
    clampedFriendShare body.parsed ≤ body.parsed.amountCents ∧
    (∃ pid, es.filter (fun e => e.entry_type == EntryType.credit) =
      [⟨pid, EntryType.credit, body.parsed.amountCents⟩]) ∧
    es.filter (fun e => e.entry_type == EntryType.debit) ≠ [] ∧
    (∃ expId, getFirst accounts AccountType.expense = some expId ∧
      (0 < body.parsed.amountCents - clampedFriendShare body.parsed →
        BuiltEntry.mk expId EntryType.debit
          (body.parsed.amountCents - clampedFriendShare body.parsed) ∈ es) ∧
      (0 < clampedFriendShare body.parsed →
        (∀ fid, getFirst accounts AccountType.friends_owe = some fid →
          BuiltEntry.mk fid EntryType.debit (clampedFriendShare body.parsed) ∈ es) ∧
        (getFirst accounts AccountType.friends_owe = none →
          BuiltEntry.mk expId EntryType.debit (clampedFriendShare body.parsed) ∈ es)) ∧
      (clampedFriendShare body.parsed = body.parsed.amountCents →
        getFirst accounts AccountType.friends_owe = none →
        BuiltEntry.mk expId EntryType.debit body.parsed.amountCents ∈ es)) := by
  unfold buildEntries at h
  split at h
  · rename_i hschema
    have hpos := schemaOk_amount_pos body hschema
    unfold buildCore at h
    split at h
    · rename_i incomeAccountId expenseAccountId checkingAccountId hinc hexp hchk
      split at h
      · rename_i hd
        obtain rfl : buildExpense body.parsed accounts _ = es := Except.ok.inj h
        obtain ⟨hcred, hdeb, hpers, hshare⟩ := buildExpense_props body.parsed accounts
          ⟨incomeAccountId, expenseAccountId, checkingAccountId,
            getFirst accounts AccountType.friends_owe⟩
        refine ⟨clampedFriendShare_le body.parsed, hcred, hdeb,
          expenseAccountId, hexp, hpers, hshare, ?_⟩
        intro hfull hnofid
        have hfs : 0 < clampedFriendShare body.parsed := by omega
        have := (hshare hfs).2 hnofid
        rw [hfull] at this
        exact this
      · rename_i hd
        rw [hdir] at hd
        simp [parseDirection] at hd
      · rename_i hd
        rw [hdir] at hd
        simp [parseDirection] at hd
      · rename_i hd
        rw [hdir] at hd
        simp [parseDirection] at hd
    · exact absurd h (by simp)
  · exact absurd h (by simp)

/-- Entry list built for the C7 witness: an expense of 500 wholly shared
with a friend, but with no friends-owe account configured, still debits
the expense sink for the full 500. -/
def esSharedNoFriends : List BuiltEntry :=
  [⟨2, EntryType.debit, 500⟩, ⟨3, EntryType.credit, 500⟩]

/-- Witness for C7: `total = 500`, requested share `1500` (clamped to
500), `friendWillReimburse = true`, no friends-owe account. -/
theorem c7_expense_split_clamp_witness :
    clampedFriendShare
        ⟨"2026-01-03", "dinner", 500, "expense", none, none, none, none, none,
          some 1500, some true, none, none⟩ ≤ 500 ∧
    (∃ pid, esSharedNoFriends.filter (fun e => e.entry_type == EntryType.credit) =
      [⟨pid, EntryType.credit, 500⟩]) ∧
    esSharedNoFriends.filter (fun e => e.entry_type == EntryType.debit) ≠ [] ∧
    (∃ expId, getFirst acctsNoFriends AccountType.expense = some expId ∧
      (0 < 500 - clampedFriendShare
          ⟨"2026-01-03", "dinner", 500, "expense", none, none, none, none, none,
            some 1500, some true, none, none⟩ →
        BuiltEntry.mk expId EntryType.debit
          (500 - clampedFriendShare
            ⟨"2026-01-03", "dinner", 500, "expense", none, none, none, none, none,
              some 1500, some true, none, none⟩) ∈ esSharedNoFriends) ∧
      (0 < clampedFriendShare
          ⟨"2026-01-03", "dinner", 500, "expense", none, none, none, none, none,
            some 1500, some true, none, none⟩ →
        (∀ fid, getFirst acctsNoFriends AccountType.friends_owe = some fid →
          BuiltEntry.mk fid EntryType.debit (clampedFriendShare
            ⟨"2026-01-03", "dinner", 500, "expense", none, none, none, none, none,
              some 1500, some true, none, none⟩) ∈ esSharedNoFriends) ∧
        (getFirst acctsNoFriends AccountType.friends_owe = none →
          BuiltEntry.mk expId EntryType.debit (clampedFriendShare
            ⟨"2026-01-03", "dinner", 500, "expense", none, none, none, none, none,
              some 1500, some true, none, none⟩) ∈ esSharedNoFriends)) ∧
      (clampedFriendShare
          ⟨"2026-01-03", "dinner", 500, "expense", none, none, none, none, none,
            some 1500, some true, none, none⟩ = 500 →
        getFirst acctsNoFriends AccountType.friends_owe = none →
        BuiltEntry.mk expId EntryType.debit 500 ∈ esSharedNoFriends)) :=
  c7_expense_split_clamp
    ⟨⟨"2026-01-03", "dinner", 500, "expense", none, none, none, none, none,
      some 1500, some true, none, none⟩, none⟩ acctsNoFriends esSharedNoFriends
    rfl (by decide)

/-- C8: a transfer (not flagged as a friend repayment) builds entries
only as a debit to the destination and a credit to the source for the
full amount, with both accounts present in the account set, active, and
distinct; and no successful build can come from a request naming the
same account as source and destination. -/
theorem c8_transfer_guards (body : RequestBody) (accounts : List Account)
    (es : List BuiltEntry)
    (hdir : body.parsed.direction = "transfer")
    (hrep : ¬ body.parsed.isFriendRepayment = some true)
    (h : buildEntries body accounts = Except.ok es) :
    (∃ toId fromId,
      es = [⟨toId, EntryType.debit, body.parsed.amountCents⟩,
            ⟨fromId, EntryType.credit, body.parsed.amountCents⟩] ∧
      toId ≠ fromId ∧
      (∃ a ∈ accounts, a.id = toId ∧ a.is_active = true) ∧
      (∃ a ∈ accounts, a.id = fromId ∧ a.is_active = true)) ∧
    ¬(∃ x, body.parsed.fromAccountId = some x ∧ body.parsed.accountId = some x) := by
  unfold buildEntries at h
  split at h
  · unfold buildCore at h
    split at h
    · split at h
      · rename_i hd
        rw [hdir] at hd
        simp [parseDirection] at hd
      · rename_i hd
        rw [hdir] at hd
        simp [parseDirection] at hd
      · rename_i hd
        split at h
        · rename_i hflag
          simp only [beq_iff_eq] at hflag
          exact absurd hflag hrep
        · constructor
          · obtain ⟨toId, fromId, _, _, rfl, hne, hto, hfrom⟩ :=
              buildTransfer_ok _ _ _ _ h
            obtain ⟨a, hafind⟩ := Option.isSome_iff_exists.mp hto
            obtain ⟨b, hbfind⟩ := Option.isSome_iff_exists.mp hfrom
            have hamem := List.mem_of_find?_eq_some hafind
            have hbmem := List.mem_of_find?_eq_some hbfind
            have hap := List.find?_some hafind
            have hbp := List.find?_some hbfind
            simp only [Bool.and_eq_true, beq_iff_eq] at hap hbp
            exact ⟨toId, fromId, rfl, hne,
              ⟨a, hamem, hap.1, hap.2⟩, ⟨b, hbmem, hbp.1, hbp.2⟩⟩
          · rintro ⟨x, hfx, htx⟩
            exact buildTransfer_self_loop _ _ _ x hfx htx es h
      · rename_i hd
        rw [hdir] at hd
        simp [parseDirection] at hd
    · exact absurd h (by simp)
  · exact absurd h (by simp)

/-- Entry list built for the C8 witness: a 2500-cent transfer from
checking (3) to savings (4). -/
def esTransferW : List BuiltEntry :=
  [⟨4, EntryType.debit, 2500⟩, ⟨3, EntryType.credit, 2500⟩]

/-- Witness for C8 at a concrete checking-to-savings transfer. -/
theorem c8_transfer_guards_witness :
    (∃ toId fromId,
      esTransferW = [⟨toId, EntryType.debit, 2500⟩,
                     ⟨fromId, EntryType.credit, 2500⟩] ∧
      toId ≠ fromId ∧
      (∃ a ∈ acctsW, a.id = toId ∧ a.is_active = true) ∧
      (∃ a ∈ acctsW, a.id = fromId ∧ a.is_active = true)) ∧
    ¬(∃ x, (some 3 : Option Nat) = some x ∧ (some 4 : Option Nat) = some x) :=
  c8_transfer_guards
    ⟨⟨"2026-01-04", "move to savings", 2500, "transfer", none, some 4, some 3,
      none, none, none, none, none, none⟩, none⟩ acctsW esTransferW
    rfl (by simp) (by decide)

/-- C10: an expense carrying an explicit `accountId` that matches no
active account of the user neither fails nor falls back to the
`paymentModeName` heuristics: the build succeeds, its credit goes to the
first checking account, the resolver returns that checking account, and
the result is the same as if no `paymentModeName` had been sent at all. -/
theorem c10_unknown_account_defaults (body : RequestBody) (accounts : List Account)
    (aid incomeId expenseId checkingId : Nat)
    (hdir : body.parsed.direction = "expense")
    (hacc : body.parsed.accountId = some aid)
    (hmiss : accounts.find? (fun a => a.id == aid && a.is_active) = none)
    (hschema : schemaOk body = true)
    (hinc : getFirst accounts AccountType.income = some incomeId)
    (hexp : getFirst accounts AccountType.expense = some expenseId)
    (hchk : getFirst accounts AccountType.checking = some checkingId) :
    resolvePaymentAccount body.parsed accounts checkingId = checkingId ∧
    (∃ es, buildEntries body accounts = Except.ok es ∧
      BuiltEntry.mk checkingId EntryType.credit body.parsed.amountCents ∈ es) ∧
    buildEntries body accounts =
      buildEntries ⟨{ body.parsed with paymentModeName := none },
        body.idempotencyKey⟩ accounts := by
  have hacc2 : ({ body.parsed with paymentModeName := none } : ParsedInput).accountId =
      some aid := hacc
  have hschema2 : schemaOk ⟨{ body.parsed with paymentModeName := none },
      body.idempotencyKey⟩ = true := hschema
  have hdir2 : ({ body.parsed with paymentModeName := none } : ParsedInput).direction =
      "expense" := hdir
  have hresolve : resolvePaymentAccount body.parsed accounts checkingId = checkingId := by
    unfold resolvePaymentAccount
    rw [hacc]
    simp only [hmiss]
  have hresolve2 : resolvePaymentAccount { body.parsed with paymentModeName := none }
      accounts checkingId = checkingId := by
    unfold resolvePaymentAccount
    rw [hacc2]
    simp only [hmiss]
  have hbuild : buildEntries body accounts =
      Except.ok (buildExpense body.parsed accounts
        ⟨incomeId, expenseId, checkingId, getFirst accounts AccountType.friends_owe⟩) := by
    unfold buildEntries buildCore
    rw [if_pos hschema]
    simp only [hinc, hexp, hchk, hdir, parseDirection]
    rfl
  have hbuild2 : buildEntries ⟨{ body.parsed with paymentModeName := none },
        body.idempotencyKey⟩ accounts =
      Except.ok (buildExpense { body.parsed with paymentModeName := none } accounts
        ⟨incomeId, expenseId, checkingId, getFirst accounts AccountType.friends_owe⟩) := by
    unfold buildEntries buildCore
    rw [if_pos hschema2]
    simp only [hinc, hexp, hchk, hdir, parseDirection]
    rfl
  have hcfs : clampedFriendShare { body.parsed with paymentModeName := none } =
      clampedFriendShare body.parsed := rfl
  have ham : ({ body.parsed with paymentModeName := none } : ParsedInput).amountCents =
      body.parsed.amountCents := rfl
  have hlists : buildExpense body.parsed accounts
        ⟨incomeId, expenseId, checkingId, getFirst accounts AccountType.friends_owe⟩ =
      buildExpense { body.parsed with paymentModeName := none } accounts
        ⟨incomeId, expenseId, checkingId, getFirst accounts AccountType.friends_owe⟩ := by
    unfold buildExpense
    simp only [hresolve, hresolve2, hcfs, ham]
  refine ⟨hresolve, ⟨_, hbuild, ?_⟩, ?_⟩
  · unfold buildExpense
    simp only [hresolve]
    exact List.mem_append_right _ (by simp)
  · rw [hbuild, hbuild2, hlists]

/-- Witness for C10: an expense naming unknown account 99 against
`acctsW` defaults its credit to checking account 3. -/
theorem c10_unknown_account_defaults_witness :
    resolvePaymentAccount
        ⟨"2026-01-06", "groceries", 700, "expense", some "amex", some 99, none,
          none, none, none, none, none, none⟩ acctsW 3 = 3 ∧
    (∃ es, buildEntries
        ⟨⟨"2026-01-06", "groceries", 700, "expense", some "amex", some 99, none,
          none, none, none, none, none, none⟩, none⟩ acctsW = Except.ok es ∧
      BuiltEntry.mk 3 EntryType.credit 700 ∈ es) ∧
    buildEntries
        ⟨⟨"2026-01-06", "groceries", 700, "expense", some "amex", some 99, none,
          none, none, none, none, none, none⟩, none⟩ acctsW =
      buildEntries
        ⟨{ (⟨"2026-01-06", "groceries", 700, "expense", some "amex", some 99, none,
            none, none, none, none, none, none⟩ : ParsedInput) with
            paymentModeName := none }, none⟩ acctsW :=
  c10_unknown_account_defaults
    ⟨⟨"2026-01-06", "groceries", 700, "expense", some "amex", some 99, none,
      none, none, none, none, none, none⟩, none⟩ acctsW 99 1 2 3
    rfl rfl (by decide) (by decide) (by decide) (by decide) (by decide)

/- ------------------------------------------------------------------ -/
/- Ledger Writer                                                       -/
/- ------------------------------------------------------------------ -/

theorem txDebitSum_append (l1 l2 : List EntryRow) (tid : Nat) :
    txDebitSum (l1 ++ l2) tid = txDebitSum l1 tid + txDebitSum l2 tid := by
  simp [txDebitSum, List.filter_append]

theorem txCreditSum_append (l1 l2 : List EntryRow) (tid : Nat) :
    txCreditSum (l1 ++ l2) tid = txCreditSum l1 tid + txCreditSum l2 tid := by
  simp [txCreditSum, List.filter_append]

theorem insertEntriesLoop_ok (db : DB) (uid tid : Nat) (es : List EntryInput)
    (rows : List EntryRow) (h : insertEntriesLoop db uid tid es = Except.ok rows) :
    rows = es.map (fun e => ⟨tid, e.account_id, e.entry_type, e.amount_cents⟩) := by
  induction es generalizing rows with
  | nil =>
    unfold insertEntriesLoop at h
    simpa using (Except.ok.inj h).symm
  | cons e rest ih =>
    unfold insertEntriesLoop at h
    split at h
    · exact absurd h (by simp)
    · split at h
      · exact absurd h (by simp)
      · split at h
        · exact absurd h (by simp)
        · rename_i rows0 hrec
          obtain rfl : _ :: rows0 = rows := Except.ok.inj h
          rw [List.map_cons, ih rows0 hrec]

theorem txDebitSum_mapRows (es : List EntryInput) (txid tid : Nat) :
    txDebitSum (es.map (fun e => ⟨txid, e.account_id, e.entry_type, e.amount_cents⟩))
      tid = if txid = tid then inputDebitSum es else 0 := by
  induction es with
  | nil => by_cases h : txid = tid <;> simp [txDebitSum, inputDebitSum, h]
  | cons e rest ih =>
    by_cases h : txid = tid <;>
      cases he : e.entry_type <;>
      simp [txDebitSum, inputDebitSum, List.filter_cons, h, he,
        Bool.and_eq_true, beq_iff_eq] at ih ⊢ <;>
      omega

theorem txCreditSum_mapRows (es : List EntryInput) (txid tid : Nat) :
    txCreditSum (es.map (fun e => ⟨txid, e.account_id, e.entry_type, e.amount_cents⟩))
      tid = if txid = tid then inputCreditSum es else 0 := by
  induction es with
  | nil => by_cases h : txid = tid <;> simp [txCreditSum, inputCreditSum, h]
  | cons e rest ih =>
    by_cases h : txid = tid <;>
      cases he : e.entry_type <;>
      simp [txCreditSum, inputCreditSum, List.filter_cons, h, he,
        Bool.and_eq_true, beq_iff_eq] at ih ⊢ <;>
      omega

theorem txDebitSum_zero_of_fresh (l : List EntryRow) (tid : Nat)
    (h : ∀ e ∈ l, ¬ e.transaction_id = tid) : txDebitSum l tid = 0 := by
  unfold txDebitSum
  rw [List.filter_eq_nil_iff.mpr]
  · rfl
  · intro e he hc
    simp only [Bool.and_eq_true, beq_iff_eq] at hc
    exact h e he hc.1

theorem txCreditSum_zero_of_fresh (l : List EntryRow) (tid : Nat)
    (h : ∀ e ∈ l, ¬ e.transaction_id = tid) : txCreditSum l tid = 0 := by
  unfold txCreditSum
  rw [List.filter_eq_nil_iff.mpr]
  · rfl
  · intro e he hc
    simp only [Bool.and_eq_true, beq_iff_eq] at hc
    exact h e he hc.1

/-- C1: the Ledger Writer preserves the balance invariant.  If every
committed transaction of the store is balanced and the new header id is
fresh for the entries table, then (a) any store the RPC returns
successfully still has every committed transaction balanced (the
deferred `ensure_transaction_balanced` trigger runs at the end of the
atomic unit), and (b) a submission whose debit and credit sums differ
fails the whole commit with an error, leaving the caller on the old
store. -/
theorem c1_writer_balance_invariant (db : DB) (auth_uid : Option Nat) (txid : Nat)
    (d desc : String) (amt : Int) (key : Option String) (es : List EntryInput)
    (hbal : dbBalancedB db = true)
    (hfresh : ∀ e ∈ db.entries, ¬ e.transaction_id = txid) :
    (∀ db2, create_transaction_with_entries db auth_uid txid d desc amt key es =
        Except.ok db2 → dbBalancedB db2 = true) ∧
    (inputDebitSum es ≠ inputCreditSum es →
      ∃ msg, create_transaction_with_entries db auth_uid txid d desc amt key es =
        Except.error msg) := by
  constructor
  · intro db2 hok
    cases auth_uid with
    | none =>
      unfold create_transaction_with_entries at hok
      exact absurd hok (by simp)
    | some uid =>
      simp only [create_transaction_with_entries] at hok
      split at hok
      · exact absurd hok (by simp)
      · split at hok
        · exact absurd hok (by simp)
        · cases hloop : insertEntriesLoop db uid txid es with
          | error msg =>
            simp only [hloop] at hok
            exact absurd hok (by simp)
          | ok rows =>
            simp only [hloop] at hok
            split at hok
            · rename_i hcond
              have hsum : inputDebitSum es = inputCreditSum es := eq_of_beq hcond
              obtain rfl : _ = db2 := Except.ok.inj hok
              have hrows := insertEntriesLoop_ok db uid txid es rows hloop
              subst hrows
              unfold dbBalancedB at hbal ⊢
              rw [List.all_eq_true] at hbal ⊢
              intro t ht
              simp only [List.mem_append, List.mem_singleton] at ht
              rcases ht with htold | rfl
              · have hold := hbal t htold
                simp only [beq_iff_eq] at hold ⊢
                rw [txDebitSum_append, txCreditSum_append,
                  txDebitSum_mapRows, txCreditSum_mapRows, hold]
                by_cases hid : txid = t.id <;> simp [hid, hsum]
              · simp only [beq_iff_eq]
                rw [txDebitSum_append, txCreditSum_append,
                  txDebitSum_mapRows, txCreditSum_mapRows,
                  txDebitSum_zero_of_fresh db.entries txid hfresh,
                  txCreditSum_zero_of_fresh db.entries txid hfresh]
                simp [hsum]
            · exact absurd hok (by simp)
  · intro hne
    cases auth_uid with
    | none => exact ⟨_, rfl⟩
    | some uid =>
      simp only [create_transaction_with_entries]
      split
      · exact ⟨_, rfl⟩
      · split
        · exact ⟨_, rfl⟩
        · cases hloop : insertEntriesLoop db uid txid es with
          | error msg => simp only [hloop]; exact ⟨msg, rfl⟩
          | ok rows =>
            simp only [hloop]
            have hcond : (inputDebitSum es == inputCreditSum es) = false := by
              simpa using hne
            rw [if_neg (by simp [hcond])]
            exact ⟨_, rfl⟩

/-- Witness for C1 at a concrete store: the empty ledger of user 7 with
the `acctsW` accounts is balanced, id 50 is fresh, so committing there
preserves the invariant and an unbalanced submission errors. -/
theorem c1_writer_balance_invariant_witness :
    ((∀ db2, create_transaction_with_entries ⟨acctsW, [], []⟩ (some 7) 50
        "2026-01-01" "coffee" 10000 (some "tok1")
        [⟨2, EntryType.debit, 10000⟩, ⟨3, EntryType.credit, 10000⟩] =
        Except.ok db2 → dbBalancedB db2 = true) ∧
      (inputDebitSum [⟨2, EntryType.debit, 10000⟩, ⟨3, EntryType.credit, 10000⟩] ≠
          inputCreditSum [⟨2, EntryType.debit, 10000⟩, ⟨3, EntryType.credit, 10000⟩] →
        ∃ msg, create_transaction_with_entries ⟨acctsW, [], []⟩ (some 7) 50
          "2026-01-01" "coffee" 10000 (some "tok1")
          [⟨2, EntryType.debit, 10000⟩, ⟨3, EntryType.credit, 10000⟩] =
          Except.error msg)) :=
  c1_writer_balance_invariant ⟨acctsW, [], []⟩ (some 7) 50 "2026-01-01" "coffee"
    10000 (some "tok1") [⟨2, EntryType.debit, 10000⟩, ⟨3, EntryType.credit, 10000⟩]
    (by decide) (by decide)

/- ------------------------------------------------------------------ -/
/- Idempotency Guard                                                   -/
/- ------------------------------------------------------------------ -/

/-- C3: `createTransaction` is idempotent per `(user, token)`.  If a
first call with client key `k` succeeds, creating transaction `id1`,
then a second call by the same user with the same body (same key) is a
successful no-op: it returns the same transaction id as `cached`
("Transaction already created"), leaves the store untouched, and the
store holds exactly one transaction for `(userId, k)` — hence exactly
one set of entries for it. -/
theorem c3_idempotent_create (db : DB) (userId : Nat) (body : RequestBody) (k : String)
    (newTxId newTxId2 : Nat) (genKey genKey2 : String) (db1 : DB) (id1 : Nat)
    (hkey : body.idempotencyKey = some k)
    (h1 : postCreateTransaction db userId body newTxId genKey =
      (db1, CreateResponse.ok id1)) :
    postCreateTransaction db1 userId body newTxId2 genKey2 =
      (db1, CreateResponse.cached id1) ∧
    (db1.transactions.filter (fun t => t.user_id == userId &&
      t.idempotency_key == some k)).length = 1 ∧
    id1 = newTxId := by
  unfold postCreateTransaction at h1
  split at h1
  · rename_i hs
    split at h1
    · rename_i clientKey hck
      rw [hkey] at hck
      obtain rfl : clientKey = k := (Option.some.inj hck).symm
      split at h1
      · simp at h1
      · rename_i hlook
        unfold postCreateProceed at h1
        split at h1
        · simp at h1
        · rename_i entries hbuild
          split at h1
          · simp at h1
          · rename_i db2 hrpc
            have hdb : db2 = db1 := congrArg Prod.fst h1
            have hid : id1 = newTxId := by
              have h2 := congrArg Prod.snd h1
              simp only [CreateResponse.ok.injEq] at h2
              exact h2.symm
            subst hdb
            subst hid
            simp only [create_transaction_with_entries] at hrpc
            split at hrpc
            · exact absurd hrpc (by simp)
            · split at hrpc
              · exact absurd hrpc (by simp)
              · split at hrpc
                · exact absurd hrpc (by simp)
                · rename_i rows hloop
                  split at hrpc
                  · rename_i hbalcond
                    obtain rfl : _ = db2 := Except.ok.inj hrpc
                    have hfind_old : db.transactions.find? (fun t =>
                        t.user_id == userId && t.idempotency_key == some clientKey) =
                        none := hlook
                    have hnil : db.transactions.filter (fun t =>
                        t.user_id == userId && t.idempotency_key == some clientKey) = [] := by
                      rw [List.filter_eq_nil_iff]
                      intro t ht hp
                      exact (List.find?_eq_none.mp hfind_old t ht) hp
                    refine ⟨?_, ?_, rfl⟩
                    · unfold postCreateTransaction
                      rw [if_pos hs]
                      have hlookup1 : lookupByIdempotencyKey
                          { db with
                            transactions := db.transactions ++
                              [⟨id1, userId, body.parsed.transactionDate,
                                body.parsed.description,
                                (body.parsed.amountCents : Int), some clientKey, none⟩],
                            entries := db.entries ++ rows } userId clientKey =
                          some ⟨id1, userId, body.parsed.transactionDate,
                            body.parsed.description,
                            (body.parsed.amountCents : Int), some clientKey, none⟩ := by
                        unfold lookupByIdempotencyKey
                        simp only [List.find?_append, hfind_old, Option.none_or]
                        simp [List.find?]
                      simp only [hkey, hlookup1]
                    · simp only [List.filter_append, hnil, List.nil_append]
                      simp [List.filter]
                  · exact absurd hrpc (by simp)
    · rename_i hck
      rw [hkey] at hck
      exact absurd hck (by simp)
  · simp at h1

/-- Request body for the C3 witness: an expense of 10000 cents with
client idempotency key "abc". -/
def bodyC3 : RequestBody :=
  ⟨⟨"2026-01-02", "coffee", 10000, "expense", none, none, none, none, none,
    none, none, none, none⟩, some "abc"⟩

/-- Empty store of user 7 for the C3 witness. -/
def dbC3 : DB := ⟨acctsW, [], []⟩

/-- The store after the first `createTransaction` call of the C3 witness. -/
def dbC3after : DB := (postCreateTransaction dbC3 7 bodyC3 100 "gen").1

/-- Witness for C3: after a first successful call creating transaction
100, the retry with the same user and key is reported as cached with the
same id, leaves the store unchanged, and exactly one `(7, "abc")`
transaction exists. -/
theorem c3_idempotent_create_witness :
    postCreateTransaction dbC3after 7 bodyC3 101 "gen2" =
      (dbC3after, CreateResponse.cached 100) ∧
    (dbC3after.transactions.filter (fun t => t.user_id == 7 &&
      t.idempotency_key == some "abc")).length = 1 ∧
    (100 : Nat) = 100 :=
  c3_idempotent_create dbC3 7 bodyC3 "abc" 100 101 "gen" "gen2" dbC3after 100
    rfl (by decide)

end FinanceTracker
